import Mathlib

/-!
Verification development for the sequenceconverter repository
(remydek/sequenceconverter).

The repository contains two near-duplicate Flask backends that implement the
job orchestration and subprocess supervision engine described by the spec:

* `src/app.py` — the legacy module;
* `src/app_new.py` — the consolidated module (the one deployed through
  `src/api/index.py`).

This file gives a shallow embedding of the parts of both modules that the
frozen claims are about: the upload save loop, the `/process` endpoint
handlers, the background pipeline `process_job` of each module, the FFmpeg
command builders, the two-phase gif path, and the progress-line parser of
the legacy module.  The external `ffmpeg` processes are abstracted by an
oracle (`ProcSpec`): the exit status or timeout of each invocation and the
files it writes are inputs of the model.  The filesystem is an association
list from paths to sizes.  Time is an abstract counter: the values the clock
would deliver at the distinguished instants are parameters.
-/

/-- Job status values used by both modules
(the strings uploaded / processing / completed / failed). -/
inductive JobStatus where
  | uploaded
  | processing
  | completed
  | failed
deriving DecidableEq

/-- Outcome of one external encoder invocation run under a deadline:
either the process exited with a code, or the deadline elapsed first
(`subprocess.TimeoutExpired`). -/
inductive RunOutcome where
  | exited (code : Int)
  | timedOut
deriving DecidableEq

/-- True when the invocation did not succeed: it timed out or exited with a
non-zero code. -/
def RunOutcome.isFailure : RunOutcome → Bool
  | .exited c => c != 0
  | .timedOut => true

/-- Oracle describing one external encoder invocation: its outcome, the
files (path, size) it writes while running, and the lines of its combined
stdout/stderr stream. -/
structure ProcSpec where
  outcome : RunOutcome
  creates : List (String × Nat)
  lines : List String
deriving DecidableEq

/-- The filesystem: an association list from absolute paths to file sizes. -/
abbrev FS := List (String × Nat)

/-- os.path.exists -/
def FS.existsPath (fs : FS) (p : String) : Bool :=
  fs.any (fun e => e.1 == p)

/-- os.path.getsize (`none` models the exception when the path is absent). -/
def FS.getsize (fs : FS) (p : String) : Option Nat :=
  (fs.find? (fun e => e.1 == p)).map (fun e => e.2)

/-- Writing a file (werkzeug file.save / an encoder producing output):
overwrites any file already at that path. -/
def FS.write (fs : FS) (p : String) (sz : Nat) : FS :=
  (p, sz) :: fs.filter (fun e => e.1 != p)

/-- os.rename: moves the file at `src` to `dst`, replacing any file at
`dst` (POSIX semantics).  Identity when `src` is absent; both callers
below guard or abort on that case. -/
def FS.rename (fs : FS) (src dst : String) : FS :=
  match fs.find? (fun e => e.1 == src) with
  | some e => (dst, e.2) :: ((fs.filter (fun x => x.1 != src)).filter (fun x => x.1 != dst))
  | none => fs

/-- Files created by an invocation are applied to the filesystem
(also on failure or timeout: a partial artifact may be left behind). -/
def applyCreates (fs : FS) (p : ProcSpec) : FS :=
  p.creates.foldl (fun a c => a.write c.1 c.2) fs

/-- Lexicographic comparison of char lists by code point, the order Python
sorted() uses on strings. -/
def charListLe : List Char → List Char → Bool
  | [], _ => true
  | _ :: _, [] => false
  | a :: as, b :: bs =>
    if a.toNat < b.toNat then true
    else if b.toNat < a.toNat then false
    else charListLe as bs

def strLe (a b : String) : Bool := charListLe a.data b.data

def insertStr (x : String) : List String → List String
  | [] => [x]
  | y :: ys => if strLe x y then x :: y :: ys else y :: insertStr x ys

/-- Python sorted() on a list of strings: stable ascending insertion sort. -/
def sortStr (l : List String) : List String := l.foldr insertStr []

/-- Python format f-string 04d: decimal digits left-padded with zeros to
width at least 4. -/
def padZeros4 (i : Nat) : String :=
  let s := Nat.repr i
  String.mk (List.replicate (4 - s.length) '0') ++ s

/-- The canonical sequential frame name frame_%04d.png used by both modules. -/
def frameName (i : Nat) : String :=
  "frame_" ++ padZeros4 i ++ ".png"

/-- The whitespace characters Python str.split() splits on (ASCII range). -/
def pyWs (c : Char) : Bool :=
  c == ' ' || c == '\t' || c == '\n' || c == '\r' || c == '\x0b' || c == '\x0c'

def pySplitWsStep (acc : List (List Char) × List Char) (c : Char) :
    List (List Char) × List Char :=
  if pyWs c then
    match acc.2 with
    | [] => (acc.1, [])
    | w => (w.reverse :: acc.1, [])
  else (acc.1, c :: acc.2)

/-- Python str.split() with no argument: split on runs of whitespace,
dropping empty chunks. -/
def pySplitWs (l : List Char) : List (List Char) :=
  let r := l.foldl pySplitWsStep ([], [])
  (match r.2 with
   | [] => r.1
   | w => w.reverse :: r.1).reverse

/-- Strips `sep` from the front of `l`, or fails. -/
def stripSepHead : List Char → List Char → Option (List Char)
  | [], l => some l
  | _ :: _, [] => none
  | s :: ss, c :: cs => if c == s then stripSepHead ss cs else none

/-- Python str.split(sep) for a non-empty separator, written with explicit
fuel so that it is structurally recursive; `l.length + 1` fuel always
suffices because every step consumes at least one character. -/
def splitSubFuel (sep : List Char) : Nat → List Char → List (List Char)
  | 0, l => [l]
  | _ + 1, [] => [[]]
  | fuel + 1, c :: cs =>
    match stripSepHead sep (c :: cs) with
    | some rest => [] :: splitSubFuel sep fuel rest
    | none =>
      match splitSubFuel sep fuel cs with
      | [] => [[c]]
      | hd :: t => (c :: hd) :: t

/-- Python str.split(sep) on a char list (sep must be non-empty, as it is
at the single use below). -/
def splitSub (sep l : List Char) : List (List Char) :=
  splitSubFuel sep (l.length + 1) l

def digitsToNat (l : List Char) : Nat :=
  l.foldl (fun a c => a * 10 + (c.toNat - 48)) 0

/-- Python int(str) on an already-stripped token: optional sign followed by
at least one decimal digit.  (The CPython extras — surrounding whitespace,
underscore digit grouping — do not occur in encoder output and are not
modelled.) -/
def pyInt (w : List Char) : Option Int :=
  match w with
  | '+' :: ds =>
    if !ds.isEmpty && ds.all Char.isDigit then some (digitsToNat ds) else none
  | '-' :: ds =>
    if !ds.isEmpty && ds.all Char.isDigit then some (-(digitsToNat ds : Int)) else none
  | ds =>
    if !ds.isEmpty && ds.all Char.isDigit then some (digitsToNat ds) else none

/-- app.py 181-189, the token extraction of the progress monitor:
if the line contains frame= then take the text after its first occurrence,
split on whitespace, and parse the first token with int(); any failure
(absent separator, no token, malformed number) yields `none`, which the
loop treats as a line to ignore. -/
def parseFrameLine (line : String) : Option Int :=
  match splitSub "frame=".data line.data with
  | _ :: seg :: _ =>
    match pySplitWs seg with
    | tok :: _ => pyInt tok
    | [] => none
  | _ => none

/-- app.py 182-189, one iteration of the progress monitor loop over the body
of the try block: a parsed frame count cf sets progress to
min(100, int((cf / total) * 100)) — int() truncates toward zero, `Int.tdiv` —
while a parse failure, or the ZeroDivisionError when total = 0, is swallowed
by the bare except and leaves progress unchanged.  (The CPython code computes
the quotient in floating point; it is modelled as the exact rational
truncated, which agrees at every realistic frame count.) -/
def progressStep (total : Nat) (prog : Int) (line : String) : Int :=
  match parseFrameLine line with
  | some cf => if total = 0 then prog else min 100 ((cf * 100).tdiv (total : Int))
  | none => prog

/-- app.py 181-189: the whole monitoring loop over the streamed lines. -/
def monitorProgress (total : Nat) (prog : Int) (lines : List String) : Int :=
  lines.foldl (progressStep total) prog

/-- app.py 111-117: output container extension; an unrecognised codec falls
through to mov. -/
def outputExtOld (codec : String) : String :=
  if codec == "vp9" || codec == "vp8" then "webm"
  else if codec == "gif" then "gif"
  else "mov"

/-- app_new.py 372-379: output container extension via a dict with default
webm. -/
def outputExtNew (codec : String) : String :=
  if codec == "vp9" then "webm"
  else if codec == "vp8" then "webm"
  else if codec == "gif" then "gif"
  else if codec == "prores" then "mov"
  else if codec == "qtrle" then "mov"
  else "webm"

/-- app.py 122-170 for the non-gif codecs: the FFmpeg argument vector.  The
frame rate is interpolated as given, without clamping.  For codec gif app.py
replaces the command wholesale with the two-pass pair (modelled only through
the outcomes of the two invocations), and line 169 skips appending the
output path, so the gif case returns the base command. -/
def buildCmdOld (dir : String) (fps : Int) (codec quality outFile : String) :
    List String :=
  let cmd := ["ffmpeg", "-y", "-framerate", toString fps, "-i",
              dir ++ "/frame_%04d.png"]
  let cmd :=
    if codec == "vp9" then
      cmd ++ ["-c:v", "libvpx-vp9", "-pix_fmt", "yuva420p"] ++
        (if quality == "best" then ["-deadline", "best", "-cpu-used", "0"]
         else if quality == "good" then ["-deadline", "good", "-cpu-used", "1"]
         else ["-deadline", "realtime", "-cpu-used", "5"])
    else if codec == "vp8" then
      cmd ++ ["-c:v", "libvpx", "-pix_fmt", "yuva420p"]
    else if codec == "prores" then
      cmd ++ ["-c:v", "prores_ks", "-profile:v", "4444", "-pix_fmt", "yuva444p10le"]
    else if codec == "qtrle" then
      cmd ++ ["-c:v", "qtrle"]
    else cmd
  if codec != "gif" then cmd ++ [outFile] else cmd

/-- app_new.py 475-497 (`_process_video`, reached only for non-gif codecs):
same construction plus quiet logging flags, always appending the output
path. -/
def buildCmdNew (dir : String) (fps : Int) (codec quality outFile : String) :
    List String :=
  let cmd := ["ffmpeg", "-y", "-v", "error", "-framerate", toString fps, "-i",
              dir ++ "/frame_%04d.png"]
  let cmd :=
    if codec == "vp9" then
      cmd ++ ["-c:v", "libvpx-vp9", "-pix_fmt", "yuva420p"] ++
        (if quality == "best" then ["-deadline", "best", "-cpu-used", "0"]
         else if quality == "good" then ["-deadline", "good", "-cpu-used", "1"]
         else ["-deadline", "realtime", "-cpu-used", "5"])
    else if codec == "vp8" then
      cmd ++ ["-c:v", "libvpx", "-pix_fmt", "yuva420p"]
    else if codec == "prores" then
      cmd ++ ["-c:v", "prores_ks", "-profile:v", "4444", "-pix_fmt", "yuva444p10le"]
    else if codec == "qtrle" then
      cmd ++ ["-c:v", "qtrle"]
    else cmd
  cmd ++ [outFile]

/-- Result of the per-codec processing helpers of app_new.py. -/
structure RunRes where
  success : Bool
  phase2Ran : Bool
  killed : Bool
  fs : FS
deriving DecidableEq

/-- app_new.py 417-468 `_process_gif`: run the palette pass; a timeout
(raised as TimeoutExpired and caught at 463, the child killed inside
subprocess.run) or a non-zero exit (439-441) returns False without running
the second pass; otherwise run the gif pass and report whether it exited 0. -/
def procGif (fs : FS) (p1 p2 : ProcSpec) : RunRes :=
  let fs1 := applyCreates fs p1
  match p1.outcome with
  | .timedOut => ⟨false, false, true, fs1⟩
  | .exited c1 =>
    if c1 != 0 then ⟨false, false, false, fs1⟩
    else
      let fs2 := applyCreates fs1 p2
      match p2.outcome with
      | .timedOut => ⟨false, true, true, fs2⟩
      | .exited c2 => ⟨c2 == 0, true, false, fs2⟩

/-- app_new.py 470-518 `_process_video`: one invocation under the deadline;
on TimeoutExpired the child is killed (512) and False returned, otherwise
success is exit code 0.  The captured combined output (`p.lines`) is
discarded: no progress parsing happens in this module. -/
def procVideo (fs : FS) (p : ProcSpec) : RunRes :=
  let fs1 := applyCreates fs p
  match p.outcome with
  | .timedOut => ⟨false, false, true, fs1⟩
  | .exited c => ⟨c == 0, false, false, fs1⟩

/-- The job record of app_new.py (dict keys of 283-290 and those added by
process_job); `none` models an absent dict key. -/
structure Job where
  status : JobStatus := .uploaded
  files : List String := []
  progress : Int := 0
  error : Option String := none
  output : Option String := none
  output_size : Option Nat := none
  processing_time : Option Nat := none
  created_at : Nat := 0
  updated_at : Nat := 0
deriving DecidableEq

/-- The job record of app.py (dict keys of 65-70 and those added by
process_job); app.py keeps no timestamps and never writes a
processing-duration key, so those lookups are constantly `none`. -/
structure JobOld where
  status : JobStatus := .uploaded
  files : List String := []
  progress : Int := 0
  error : Option String := none
  output : Option String := none
  output_size : Option Nat := none
  processing_time : Option Nat := none
deriving DecidableEq

/-- app_new.py 364-370: one step of the renaming loop — guarded by
os.path.exists, so a missing source file is skipped. -/
def renameStepNew (dir : String) (fs : FS) (p : Nat × String) : FS :=
  let oldPath := dir ++ "/" ++ p.2
  if fs.existsPath oldPath then fs.rename oldPath (dir ++ "/" ++ frameName p.1)
  else fs

/-- app_new.py 364-370: rename the sorted frames to the sequential
pattern, skipping missing sources. -/
def renameFramesNew (fs : FS) (dir : String) (files : List String) : FS :=
  ((sortStr files).enum).foldl (renameStepNew dir) fs

/-- app.py 104-109: the unguarded renaming loop.  os.rename on a missing
source raises FileNotFoundError, aborting the loop; renames already done
persist.  Returns the filesystem and the pending exception text, if any
(CPython additionally quotes both paths in the message). -/
def renameFramesOld (fs : FS) (dir : String) (files : List String) :
    FS × Option String :=
  ((sortStr files).enum).foldl
    (fun (a : FS × Option String) p =>
      match a.2 with
      | some _ => a
      | none =>
        let oldPath := dir ++ "/" ++ p.2
        if a.1.existsPath oldPath then
          (a.1.rename oldPath (dir ++ "/" ++ frameName p.1), none)
        else
          (a.1, some ("[Errno 2] No such file or directory: " ++ oldPath)))
    (fs, none)

/-- Observable result of one run of the app_new.py pipeline. -/
structure NewTrace where
  job : Job
  fs : FS
  cmd : List String
  phase2Ran : Bool
  killed : Bool
  encoderRan : Bool
deriving DecidableEq

/-- app_new.py 353-415 `process_job`, the background pipeline of the
consolidated module, for a job taken from the store.  `p1` and `pF` are the
oracle descriptions of the palette pass (used only for codec gif) and of
the final encoding pass; `t1` and `t2` are the clock values at the start of
processing and at the terminal transition, `elapsed` the measured wall time.
Faithful points to note against the source: the status is set to processing
with a fresh updated_at (356-357); the failed branch (401-404) records the
generic message and does not touch updated_at; the completed branch
(392-397) requires both success and the artifact existing on disk. -/
def process_job_new (job0 : Job) (fs0 : FS) (dir : String) (fps : Int)
    (codec quality : String) (p1 pF : ProcSpec) (t1 t2 elapsed : Nat) :
    NewTrace :=
  let job1 := { job0 with status := JobStatus.processing, updated_at := t1 }
  let fs1 := renameFramesNew fs0 dir job1.files
  let ext := outputExtNew codec
  let outFile := dir ++ "/output." ++ ext
  let cmd := buildCmdNew dir fps codec quality outFile
  let r := if codec == "gif" then procGif fs1 p1 pF else procVideo fs1 pF
  if r.success && r.fs.existsPath outFile then
    { job := { job1 with
        status := JobStatus.completed
        output := some outFile
        output_size := r.fs.getsize outFile
        processing_time := some elapsed
        updated_at := t2 }
      fs := r.fs, cmd := cmd, phase2Ran := r.phase2Ran, killed := r.killed
      encoderRan := true }
  else
    { job := { job1 with
        status := JobStatus.failed
        error := some "FFmpeg processing failed" }
      fs := r.fs, cmd := cmd, phase2Ran := r.phase2Ran, killed := r.killed
      encoderRan := true }

/-- Observable result of one run of the app.py pipeline. -/
structure OldTrace where
  job : JobOld
  fs : FS
  cmd : List String
  encoderRan : Bool
deriving DecidableEq

/-- app.py 99-203 `process_job`, the background pipeline of the legacy
module, for the non-gif codecs (the gif branch 129-153 is not needed by any
claim).  `finalCode`, `finalCreates` and `finalLines` describe the single
FFmpeg invocation, which app.py runs without any deadline.  Faithful points
to note against the source: the unguarded rename aborts the pipeline into
the except handler (201-203); every streamed line goes through the progress
monitor (181-189); on exit code 0 the job is marked completed and os.path.
getsize is called (193-196) — if the artifact is missing that call raises
and the except handler flips the job to failed; no timestamp and no
duration is ever recorded. -/
def process_job_old (job0 : JobOld) (fs0 : FS) (dir : String) (fps : Int)
    (codec quality : String) (finalCode : Int)
    (finalCreates : List (String × Nat)) (finalLines : List String) :
    OldTrace :=
  let job1 := { job0 with status := JobStatus.processing }
  let rn := renameFramesOld fs0 dir job1.files
  match rn.2 with
  | some e =>
    { job := { job1 with status := JobStatus.failed, error := some e }
      fs := rn.1, cmd := [], encoderRan := false }
  | none =>
    let ext := outputExtOld codec
    let outFile := dir ++ "/output." ++ ext
    let cmd := buildCmdOld dir fps codec quality outFile
    let fs2 := finalCreates.foldl (fun a c => a.write c.1 c.2) rn.1
    let prog := monitorProgress job1.files.length job1.progress finalLines
    let job2 := { job1 with progress := prog }
    if finalCode == 0 then
      match fs2.getsize outFile with
      | some sz =>
        { job := { job2 with
            status := JobStatus.completed
            output := some outFile
            output_size := some sz }
          fs := fs2, cmd := cmd, encoderRan := true }
      | none =>
        { job := { job2 with
            status := JobStatus.failed
            output := some outFile
            error := some ("[Errno 2] No such file or directory: " ++ outFile) }
          fs := fs2, cmd := cmd, encoderRan := true }
    else
      { job := { job2 with
          status := JobStatus.failed
          error := some "FFmpeg processing failed" }
        fs := fs2, cmd := cmd, encoderRan := true }

/-- Synchronous result of the /process endpoint. -/
inductive StartResult where
  | notFound
  | invalidState
  | invalidCodec
  | accepted (fps : Int) (codec quality : String)
deriving DecidableEq

/-- The five codec values app_new.py 333 accepts. -/
def supportedCodecs : List String := ["vp9", "vp8", "gif", "prores", "qtrle"]

/-- app_new.py 309-351 `process_video`: guard on the stored status, then
clamp fps into [1, 60] (328), then reject an unsupported codec with HTTP 400
(332-334), and only then hand the parameters to a background thread. -/
def process_video_new (jobStatus : Option JobStatus) (dataFps : Option Int)
    (dataCodec dataQuality : Option String) : StartResult :=
  match jobStatus with
  | none => StartResult.notFound
  | some st =>
    if st ≠ JobStatus.uploaded then StartResult.invalidState
    else
      let fps := max 1 (min 60 (dataFps.getD 24))
      let codec := dataCodec.getD "vp9"
      let quality := dataQuality.getD "good"
      if !(supportedCodecs.contains codec) then StartResult.invalidCodec
      else StartResult.accepted fps codec quality

/-- app.py 78-97 `process_video`: guard on the stored status, then pass the
request parameters straight to the background thread — no fps clamping and
no codec validation of any kind. -/
def process_video_old (jobStatus : Option JobStatus) (dataFps : Option Int)
    (dataCodec dataQuality : Option String) : StartResult :=
  match jobStatus with
  | none => StartResult.notFound
  | some st =>
    if st ≠ JobStatus.uploaded then StartResult.invalidState
    else
      StartResult.accepted (dataFps.getD 24) (dataCodec.getD "vp9")
        (dataQuality.getD "good")

/-- Number of background pipeline threads a given handler result starts
(threading.Thread(...).start() is reached only on the accepted path,
app.py 93-95 / app_new.py 336-343). -/
def startLaunches : StartResult → Nat
  | .accepted _ _ _ => 1
  | _ => 0

/-- State of one job as seen by interleaved requests and threads: its stored
status and how many pipeline threads have been launched for it. -/
structure SrvState where
  status : JobStatus
  launched : Nat
deriving DecidableEq

/-- One handling of POST /process for an existing job with valid parameters
(app.py 78-97, app_new.py 309-351): the guard reads the stored status; on
the accepted path a background thread is started and the handler returns —
the handler itself does not modify the status.  The transition to
processing is the first statement of process_job, which runs later on the
launched thread. -/
def processEndpoint (s : SrvState) : StartResult × SrvState :=
  if s.status = JobStatus.uploaded then
    (StartResult.accepted 24 "vp9" "good", { s with launched := s.launched + 1 })
  else (StartResult.invalidState, s)

/-- The first statement of process_job (app.py 100-101, app_new.py
355-357), executed on the background thread at some point after the handler
returned: sets the stored status to processing. -/
def pipelineFirstStep (s : SrvState) : SrvState :=
  { s with status := JobStatus.processing }

/-- app.py 27-28 / app_new.py 57-59 `allowed_file`: the name contains a dot
and the text after the last dot, lowercased, is png. -/
def allowed_file (filename : String) : Bool :=
  filename.data.contains '.' &&
    ((filename.data.reverse.takeWhile (fun c => c != '.')).reverse.map
      Char.toLower == "png".data)

/-- The character class [A-Za-z0-9_.-] kept by werkzeug secure_filename. -/
def allowedFnChar (c : Char) : Bool :=
  c.isUpper || c.isLower || c.isDigit || c == '_' || c == '.' || c == '-'

/-- Modelled after werkzeug.utils.secure_filename on ASCII filenames, the
function both upload endpoints apply to each original name: the POSIX
separator is replaced by a space, the name is whitespace-split and rejoined
with underscores, characters outside [A-Za-z0-9_.-] are removed, and
leading or trailing dots and underscores are stripped.  (Unicode NFKD
normalisation and the Windows device-name special case lie outside the
ASCII domain used here.) -/
def secure_filename (s : String) : String :=
  let replaced := s.data.map (fun c => if c == '/' then ' ' else c)
  let joined := List.intercalate ['_'] (pySplitWs replaced)
  let filtered := joined.filter allowedFnChar
  let strip := fun (l : List Char) => l.dropWhile (fun c => c == '.' || c == '_')
  String.mk ((strip ((strip filtered).reverse)).reverse)

/-- What the upload save loop leaves behind: the recorded file name list and
the files on disk. -/
structure UploadState where
  saved : List String
  disk : FS
deriving DecidableEq

/-- app.py 49-76 / app_new.py 270-301, the save loop of the upload
endpoint: each allowed file is saved under its secured name — werkzeug
file.save overwrites an existing file at the same path — and the secured
name is appended to saved_files, which is then sorted and stored as the
frames list of the job; file_count of the response is its length. -/
def upload_files (dir : String) (files : List (String × Nat)) : UploadState :=
  let st := files.foldl
    (fun (a : UploadState) f =>
      if allowed_file f.1 then
        let fn := secure_filename f.1
        { saved := a.saved ++ [fn], disk := a.disk.write (dir ++ "/" ++ fn) f.2 }
      else a)
    ⟨[], []⟩
  { st with saved := sortStr st.saved }

/-!  Helper lemmas. -/

theorem existsPath_eq_false_iff (fs : FS) (p : String) :
    fs.existsPath p = false ↔ ∀ e ∈ fs, e.1 ≠ p := by
  unfold FS.existsPath
  rw [← Bool.not_eq_true, List.any_eq_true]
  simp only [beq_iff_eq, not_exists, not_and]

theorem existsPath_write_false {fs : FS} {p q : String} {sz : Nat}
    (hne : q ≠ p) (h : fs.existsPath p = false) :
    (fs.write q sz).existsPath p = false := by
  rw [existsPath_eq_false_iff] at h ⊢
  unfold FS.write
  intro e he
  rcases List.mem_cons.mp he with h1 | h2
  · rw [h1]; exact hne
  · exact h e (List.mem_filter.mp h2).1

theorem existsPath_rename_false {fs : FS} {p s d : String}
    (hne : d ≠ p) (h : fs.existsPath p = false) :
    (FS.rename fs s d).existsPath p = false := by
  unfold FS.rename
  cases hfind : fs.find? (fun e => e.1 == s) with
  | none => exact h
  | some e =>
    rw [existsPath_eq_false_iff] at h ⊢
    intro x hx
    rcases List.mem_cons.mp hx with h1 | h2
    · rw [h1]; exact hne
    · exact h x (List.mem_filter.mp (List.mem_filter.mp h2).1).1

theorem existsPath_writes_false {p : String} :
    ∀ (l : List (String × Nat)) (fs : FS), (∀ e ∈ l, e.1 ≠ p) →
      fs.existsPath p = false →
      (l.foldl (fun a c => a.write c.1 c.2) fs).existsPath p = false := by
  intro l
  induction l with
  | nil => exact fun fs _ h => h
  | cons e t ih =>
    intro fs hc h
    simp only [List.foldl_cons]
    exact ih _ (fun x hx => hc x (List.mem_cons_of_mem _ hx))
      (existsPath_write_false (hc e (List.mem_cons_self _ _)) h)

theorem existsPath_applyCreates_false {fs : FS} {ps : ProcSpec} {p : String}
    (hc : ∀ e ∈ ps.creates, e.1 ≠ p) (h : fs.existsPath p = false) :
    (applyCreates fs ps).existsPath p = false :=
  existsPath_writes_false ps.creates fs hc h

theorem padZeros4_length_ge (i : Nat) : 4 ≤ (padZeros4 i).length := by
  unfold padZeros4
  rw [String.length_append]
  simp
  omega

theorem frameName_length_ge (i : Nat) : 14 ≤ (frameName i).length := by
  unfold frameName
  rw [String.length_append, String.length_append]
  have := padZeros4_length_ge i
  have h1 : String.length "frame_" = 6 := rfl
  have h2 : String.length ".png" = 4 := rfl
  omega

/-- A sequential frame name never collides with the gif output artifact
path: their lengths differ. -/
theorem rename_target_ne_outGif (dir : String) (i : Nat) :
    dir ++ "/" ++ frameName i ≠ dir ++ "/output." ++ "gif" := by
  intro h
  have hl := congrArg String.length h
  rw [String.length_append, String.length_append, String.length_append,
    String.length_append] at hl
  have := frameName_length_ge i
  have h1 : String.length "/" = 1 := rfl
  have h2 : String.length "/output." = 8 := rfl
  have h3 : String.length "gif" = 3 := rfl
  omega

theorem existsPath_renameSteps_false {dir p : String}
    (hne : ∀ i : Nat, dir ++ "/" ++ frameName i ≠ p) :
    ∀ (l : List (Nat × String)) (fs : FS), fs.existsPath p = false →
      (l.foldl (renameStepNew dir) fs).existsPath p = false := by
  intro l
  induction l with
  | nil => exact fun fs h => h
  | cons e t ih =>
    intro fs h
    simp only [List.foldl_cons]
    apply ih
    unfold renameStepNew
    dsimp only
    split
    · exact existsPath_rename_false (hne e.1) h
    · exact h

theorem existsPath_renameFramesNew_false {fs : FS} {dir p : String}
    {files : List String} (hne : ∀ i : Nat, dir ++ "/" ++ frameName i ≠ p)
    (h : fs.existsPath p = false) :
    (renameFramesNew fs dir files).existsPath p = false :=
  existsPath_renameSteps_false hne _ _ h

theorem getsize_isSome {fs : FS} {p : String} (h : fs.existsPath p = true) :
    (fs.getsize p).isSome = true := by
  unfold FS.existsPath at h
  unfold FS.getsize
  have h2 : (fs.find? (fun e => e.1 == p)).isSome := by
    rw [List.find?_isSome]
    rcases List.any_eq_true.mp h with ⟨e, he, hbe⟩
    exact ⟨e, he, hbe⟩
  rcases Option.isSome_iff_exists.mp h2 with ⟨v, hv⟩
  rw [hv]
  rfl

theorem procGif_success_exit0 {fs : FS} {p1 p2 : ProcSpec}
    (h : (procGif fs p1 p2).success = true) :
    p2.outcome = RunOutcome.exited 0 := by
  unfold procGif at h
  dsimp only at h
  split at h
  · simp at h
  · split at h
    · simp at h
    · split at h
      · simp at h
      · next c2 heq =>
          simp at h
          rw [heq, h]

theorem procVideo_success_exit0 {fs : FS} {p : ProcSpec}
    (h : (procVideo fs p).success = true) :
    p.outcome = RunOutcome.exited 0 := by
  unfold procVideo at h
  dsimp only at h
  split at h
  · simp at h
  · next c heq =>
      simp at h
      rw [heq, h]

/-- When phase 1 fails, `_process_gif` reports failure, never runs phase 2,
and the filesystem holds only what phase 1 itself wrote. -/
theorem procGif_fail {fs : FS} {p1 p2 : ProcSpec}
    (hfail : p1.outcome.isFailure = true) :
    (procGif fs p1 p2).success = false ∧ (procGif fs p1 p2).phase2Ran = false ∧
    (procGif fs p1 p2).fs = applyCreates fs p1 := by
  unfold procGif
  dsimp only
  cases h1 : p1.outcome with
  | timedOut => simp
  | exited c1 =>
    rw [h1] at hfail
    simp only [RunOutcome.isFailure] at hfail
    simp [hfail]

theorem append_tail3 (base a b c : List String) :
    ∃ t, ((base ++ a) ++ b) ++ c = base ++ t :=
  ⟨a ++ (b ++ c), by simp [List.append_assoc]⟩

theorem append_tail2 (base a b : List String) :
    ∃ t, (base ++ a) ++ b = base ++ t := ⟨a ++ b, by rw [List.append_assoc]⟩

theorem append_tail1 (base b : List String) :
    ∃ t, base ++ b = base ++ t := ⟨b, rfl⟩

theorem append_tail0 (base : List String) : ∃ t, base = base ++ t :=
  ⟨[], by simp⟩

/-!  Claim theorems. -/

/-- C1: evaluation of the code at the failing interleaving.  The /process
handler only reads the stored status and starts the pipeline thread; the
transition to processing is performed later by that thread.  Hence with the
job still uploaded, a second /process call handled before the launched
thread runs its first statement is also accepted and a second pipeline is
launched (two launches), contradicting the claim that the second call is
rejected and exactly one pipeline execution ever occurs.  Once the thread
has run its first statement, a further call is indeed rejected. -/
theorem double_start_second_call_accepted :
    (processEndpoint ⟨JobStatus.uploaded, 0⟩).1
      = StartResult.accepted 24 "vp9" "good" ∧
    (processEndpoint (processEndpoint ⟨JobStatus.uploaded, 0⟩).2).1
      = StartResult.accepted 24 "vp9" "good" ∧
    (processEndpoint (processEndpoint ⟨JobStatus.uploaded, 0⟩).2).2.launched = 2 ∧
    (processEndpoint (pipelineFirstStep (processEndpoint ⟨JobStatus.uploaded, 0⟩).2)).1
      = StartResult.invalidState := by decide

/-- C2 (amended): in app_new.py, when the final (non-gif) encoder invocation
exceeds the deadline, the child process is killed and the job transitions to
Failed — but the recorded failure reason is the generic FFmpeg processing
failed, the same string recorded for a non-zero exit. -/
theorem timeout_kills_and_fails_generic_reason (job0 : Job) (fs0 : FS)
    (dir codec quality : String) (p1 : ProcSpec) (creates : List (String × Nat))
    (outLines : List String) (fps : Int) (t1 t2 el : Nat)
    (hng : codec ≠ "gif") :
    let r := process_job_new job0 fs0 dir fps codec quality p1
      ⟨RunOutcome.timedOut, creates, outLines⟩ t1 t2 el
    r.killed = true ∧ r.job.status = JobStatus.failed ∧
    r.job.error = some "FFmpeg processing failed" := by
  have hbe : (codec == "gif") = false := by simp [hng]
  simp [process_job_new, procVideo, hbe]

/-- C2 witness: the timeout theorem applied at a concrete job. -/
theorem timeout_kills_witness :
    let r := process_job_new ({} : Job) [] "d" 24 "vp9" "good"
      ⟨RunOutcome.exited 0, [], []⟩ ⟨RunOutcome.timedOut, [], []⟩ 1 2 3
    r.killed = true ∧ r.job.status = JobStatus.failed ∧
    r.job.error = some "FFmpeg processing failed" :=
  timeout_kills_and_fails_generic_reason {} [] "d" "vp9" "good"
    ⟨RunOutcome.exited 0, [], []⟩ [] [] 24 1 2 3 (by decide)

/-- C2 counterexample: the reason recorded for a timeout equals the reason
recorded for a non-zero exit — the claimed distinction does not exist on
the job record (it appears only in the server log). -/
theorem timeout_reason_not_distinct :
    let jb : Job := { status := JobStatus.uploaded, files := ["a.png"] }
    let rT := process_job_new jb [("d/a.png", 5)] "d" 24 "vp9" "good"
      ⟨RunOutcome.exited 0, [], []⟩ ⟨RunOutcome.timedOut, [], []⟩ 1 2 3
    let rE := process_job_new jb [("d/a.png", 5)] "d" 24 "vp9" "good"
      ⟨RunOutcome.exited 0, [], []⟩ ⟨RunOutcome.exited 1, [], []⟩ 1 2 3
    rT.killed = true ∧ rT.job.status = JobStatus.failed ∧
    rE.job.status = JobStatus.failed ∧
    rT.job.error = rE.job.error ∧
    rT.job.error = some "FFmpeg processing failed" := by decide

/-- C3 (amended): in app_new.py, when the palette pass of a gif job does not
succeed, phase 2 is never run, the output artifact is never created, and
the job transitions to Failed — but with the generic reason FFmpeg
processing failed rather than one describing the palette-generation
failure. -/
theorem palette_failure_no_phase2_no_artifact (job0 : Job) (fs0 : FS)
    (dir quality : String) (p1 pF : ProcSpec) (fps : Int) (t1 t2 el : Nat)
    (hfail : p1.outcome.isFailure = true)
    (hout : fs0.existsPath (dir ++ "/output." ++ "gif") = false)
    (hcr : ∀ e ∈ p1.creates, e.1 ≠ dir ++ "/output." ++ "gif") :
    let r := process_job_new job0 fs0 dir fps "gif" quality p1 pF t1 t2 el
    r.phase2Ran = false ∧
    r.fs.existsPath (dir ++ "/output." ++ "gif") = false ∧
    r.job.status = JobStatus.failed ∧
    r.job.error = some "FFmpeg processing failed" := by
  have hext : outputExtNew "gif" = "gif" := by decide
  have hfs1 : (renameFramesNew fs0 dir job0.files).existsPath
      (dir ++ "/output." ++ "gif") = false :=
    existsPath_renameFramesNew_false (fun i => rename_target_ne_outGif dir i) hout
  have hfsp : (applyCreates (renameFramesNew fs0 dir job0.files) p1).existsPath
      (dir ++ "/output." ++ "gif") = false :=
    existsPath_applyCreates_false hcr hfs1
  obtain ⟨hs, hp2, hfs⟩ :=
    @procGif_fail (renameFramesNew fs0 dir job0.files) p1 pF hfail
  simp only [process_job_new, hext]
  simp [hs, hp2, hfs, hfsp]

/-- C3 witness: the palette-failure theorem applied at a concrete gif job
whose palette pass exits 1. -/
theorem palette_failure_witness :
    let r := process_job_new ({ files := ["a.png"] } : Job) [("d/a.png", 5)] "d"
      24 "gif" "good" ⟨RunOutcome.exited 1, [], []⟩
      ⟨RunOutcome.exited 0, [("d/output.gif", 9)], []⟩ 1 2 3
    r.phase2Ran = false ∧
    r.fs.existsPath ("d" ++ "/output." ++ "gif") = false ∧
    r.job.status = JobStatus.failed ∧
    r.job.error = some "FFmpeg processing failed" :=
  palette_failure_no_phase2_no_artifact { files := ["a.png"] } [("d/a.png", 5)]
    "d" "good" ⟨RunOutcome.exited 1, [], []⟩
    ⟨RunOutcome.exited 0, [("d/output.gif", 9)], []⟩ 24 1 2 3
    (by decide) (by decide) (by decide)

/-- C3 counterexample: the reason recorded for a palette-pass failure is the
generic FFmpeg processing failed, identical to the reason recorded when the
palette pass succeeds and phase 2 fails — it does not describe the
palette-generation failure (that detail goes only to the log). -/
theorem palette_failure_reason_generic :
    let jb : Job := { status := JobStatus.uploaded, files := ["a.png"] }
    let rPal := process_job_new jb [("d/a.png", 5)] "d" 24 "gif" "good"
      ⟨RunOutcome.exited 1, [], []⟩
      ⟨RunOutcome.exited 0, [("d/output.gif", 9)], []⟩ 1 2 3
    let rPh2 := process_job_new jb [("d/a.png", 5)] "d" 24 "gif" "good"
      ⟨RunOutcome.exited 0, [("d/palette.png", 4)], []⟩
      ⟨RunOutcome.exited 1, [], []⟩ 1 2 3
    rPal.job.status = JobStatus.failed ∧ rPal.phase2Ran = false ∧
    rPal.fs.existsPath "d/output.gif" = false ∧
    rPal.job.error = some "FFmpeg processing failed" ∧
    rPal.job.error = rPh2.job.error := by decide

/-- C4 (amended): in app_new.py a job reaches Completed only when the final
encoder invocation exited 0 and the output artifact exists on disk, and the
transition records the artifact path, its size, and the elapsed wall time;
in legacy app.py the pipeline never records any processing duration (the
dict key is never written). -/
theorem completed_requires_exit0_and_artifact :
    (∀ (job0 : Job) (fs0 : FS) (dir codec quality : String) (p1 pF : ProcSpec)
        (fps : Int) (t1 t2 el : Nat),
      (process_job_new job0 fs0 dir fps codec quality p1 pF t1 t2 el).job.status
          = JobStatus.completed →
      pF.outcome = RunOutcome.exited 0 ∧
      (process_job_new job0 fs0 dir fps codec quality p1 pF t1 t2 el).fs.existsPath
          (dir ++ "/output." ++ outputExtNew codec) = true ∧
      (process_job_new job0 fs0 dir fps codec quality p1 pF t1 t2 el).job.output
          = some (dir ++ "/output." ++ outputExtNew codec) ∧
      (process_job_new job0 fs0 dir fps codec quality p1 pF t1 t2 el).job.output_size
          = (process_job_new job0 fs0 dir fps codec quality p1 pF t1 t2 el).fs.getsize
              (dir ++ "/output." ++ outputExtNew codec) ∧
      ((process_job_new job0 fs0 dir fps codec quality p1 pF t1 t2 el).job.output_size).isSome
          = true ∧
      (process_job_new job0 fs0 dir fps codec quality p1 pF t1 t2 el).job.processing_time
          = some el) ∧
    (∀ (job0 : JobOld) (fs0 : FS) (dir : String) (fps : Int)
        (codec quality : String) (fc : Int) (fcr : List (String × Nat))
        (fl : List String),
      (process_job_old job0 fs0 dir fps codec quality fc fcr fl).job.processing_time
        = job0.processing_time) := by
  constructor
  · intro job0 fs0 dir codec quality p1 pF fps t1 t2 el hcomp
    simp only [process_job_new] at hcomp ⊢
    by_cases hcond :
        ((if (codec == "gif") = true then
            procGif (renameFramesNew fs0 dir job0.files) p1 pF
          else procVideo (renameFramesNew fs0 dir job0.files) pF).success &&
         (if (codec == "gif") = true then
            procGif (renameFramesNew fs0 dir job0.files) p1 pF
          else procVideo (renameFramesNew fs0 dir job0.files) pF).fs.existsPath
            (dir ++ "/output." ++ outputExtNew codec)) = true
    · have hcond2 := hcond
      rw [Bool.and_eq_true] at hcond2
      obtain ⟨hsucc, hex⟩ := hcond2
      have hexit : pF.outcome = RunOutcome.exited 0 := by
        by_cases hgif : (codec == "gif") = true
        · rw [if_pos hgif] at hsucc
          exact procGif_success_exit0 hsucc
        · rw [if_neg hgif] at hsucc
          exact procVideo_success_exit0 hsucc
      rw [if_pos hcond]
      exact ⟨hexit, hex, rfl, rfl, getsize_isSome hex, rfl⟩
    · rw [if_neg hcond] at hcomp
      simp at hcomp
  · intro job0 fs0 dir fps codec quality fc fcr fl
    simp only [process_job_old]
    split
    · rfl
    · split
      · split
        · rfl
        · rfl
      · rfl

/-- C4 witness: the completion theorem applied at a concrete successful
job of the consolidated module. -/
theorem completed_requires_witness :
    let jb : Job := { status := JobStatus.uploaded, files := ["a.png"] }
    ((⟨RunOutcome.exited 0, [("d/output.webm", 7)], []⟩ : ProcSpec).outcome
        = RunOutcome.exited 0) ∧
    (process_job_new jb [("d/a.png", 5)] "d" 24 "vp9" "good"
        ⟨RunOutcome.exited 0, [], []⟩ ⟨RunOutcome.exited 0, [("d/output.webm", 7)], []⟩
        1 2 3).job.processing_time = some 3 :=
  have h := completed_requires_exit0_and_artifact.1
    { status := JobStatus.uploaded, files := ["a.png"] } [("d/a.png", 5)] "d"
    "vp9" "good" ⟨RunOutcome.exited 0, [], []⟩
    ⟨RunOutcome.exited 0, [("d/output.webm", 7)], []⟩ 24 1 2 3 (by decide)
  ⟨h.1, h.2.2.2.2.2⟩

/-- C4 counterexample: a legacy (app.py) job completes with its artifact
size recorded but no processing duration ever recorded, contradicting the
claim that the elapsed wall-clock time is recorded on the transition. -/
theorem legacy_completed_without_duration :
    let jb : JobOld := { status := JobStatus.uploaded, files := ["a.png"] }
    let r := process_job_old jb [("d/a.png", 5)] "d" 24 "vp9" "good" 0
      [("d/output.webm", 7)] []
    r.job.status = JobStatus.completed ∧ r.job.output_size = some 7 ∧
    r.job.processing_time = none := by decide

/-- C5 (amended): the consolidated module clamps the requested frame rate
into [1, 60] — never rejecting for it — before handing it to the command
builder, whose framerate argument is exactly the value it receives; the
legacy module also never rejects, but passes the raw frame rate through
unclamped into its command. -/
theorem fps_clamped_in_consolidated (fpsReq fps2 : Int)
    (codec quality dir outF : String)
    (hcodec : supportedCodecs.contains codec = true) :
    process_video_new (some JobStatus.uploaded) (some fpsReq) (some codec)
        (some quality)
      = StartResult.accepted (max 1 (min 60 fpsReq)) codec quality ∧
    1 ≤ max 1 (min 60 fpsReq) ∧ max 1 (min 60 fpsReq) ≤ 60 ∧
    (∃ t, buildCmdNew dir fps2 codec quality outF =
      ["ffmpeg", "-y", "-v", "error", "-framerate", toString fps2, "-i",
       dir ++ "/frame_%04d.png"] ++ t) ∧
    process_video_old (some JobStatus.uploaded) (some fpsReq) (some codec)
        (some quality)
      = StartResult.accepted fpsReq codec quality ∧
    (∃ t, buildCmdOld dir fps2 codec quality outF =
      ["ffmpeg", "-y", "-framerate", toString fps2, "-i",
       dir ++ "/frame_%04d.png"] ++ t) := by
  have hmem : codec ∈ supportedCodecs := List.mem_of_elem_eq_true hcodec
  refine ⟨?_, ?_, ?_, ?_, ?_, ?_⟩
  · simp [process_video_new, hmem]
  · exact le_max_left 1 _
  · exact max_le (by norm_num) (min_le_left 60 _)
  · unfold buildCmdNew
    dsimp only
    repeat' split
    all_goals first
      | exact append_tail3 _ _ _ _
      | exact append_tail2 _ _ _
      | exact append_tail1 _ _
  · simp [process_video_old]
  · unfold buildCmdOld
    dsimp only
    repeat' split
    all_goals first
      | exact append_tail3 _ _ _ _
      | exact append_tail2 _ _ _
      | exact append_tail1 _ _
      | exact append_tail0 _

/-- C5 witness: the clamping theorem applied at frame rate 1000 (clamped to
60 by the consolidated module, passed through by the legacy one). -/
theorem fps_clamped_witness :
    process_video_new (some JobStatus.uploaded) (some 1000) (some "vp9")
        (some "good")
      = StartResult.accepted (max 1 (min 60 1000)) "vp9" "good" ∧
    1 ≤ max 1 (min 60 (1000 : Int)) ∧ max 1 (min 60 (1000 : Int)) ≤ 60 ∧
    (∃ t, buildCmdNew "d" 60 "vp9" "good" "d/output.webm" =
      ["ffmpeg", "-y", "-v", "error", "-framerate", toString (60 : Int), "-i",
       "d" ++ "/frame_%04d.png"] ++ t) ∧
    process_video_old (some JobStatus.uploaded) (some 1000) (some "vp9")
        (some "good")
      = StartResult.accepted 1000 "vp9" "good" ∧
    (∃ t, buildCmdOld "d" 60 "vp9" "good" "d/output.webm" =
      ["ffmpeg", "-y", "-framerate", toString (60 : Int), "-i",
       "d" ++ "/frame_%04d.png"] ++ t) :=
  fps_clamped_in_consolidated 1000 60 "vp9" "good" "d" "d/output.webm" (by decide)

/-- C5 counterexample: in the legacy module a request with frame rate 1000
is accepted and the encoder command carries the unclamped value 1000, which
lies outside [1, 60] — no clamping happens before the command is built. -/
theorem legacy_fps_not_clamped :
    process_video_old (some JobStatus.uploaded) (some 1000) (some "vp9")
        (some "good")
      = StartResult.accepted 1000 "vp9" "good" ∧
    (buildCmdOld "d" 1000 "vp9" "good" "d/output.webm").take 4
      = ["ffmpeg", "-y", "-framerate", "1000"] ∧
    ¬ ((1 : Int) ≤ 1000 ∧ (1000 : Int) ≤ 60) := by decide

/-- C6 (amended): the consolidated module rejects a codec outside
{vp9, vp8, gif, prores, qtrle} synchronously with HTTP 400 before starting
any pipeline (no process spawned, job never started); the legacy module
performs no codec validation at all and starts the pipeline for any codec
value. -/
theorem codec_validated_in_consolidated (fps : Option Int)
    (codec quality : String)
    (hbad : supportedCodecs.contains codec = false) :
    process_video_new (some JobStatus.uploaded) fps (some codec) (some quality)
      = StartResult.invalidCodec ∧
    startLaunches (process_video_new (some JobStatus.uploaded) fps (some codec)
      (some quality)) = 0 ∧
    process_video_old (some JobStatus.uploaded) fps (some codec) (some quality)
      = StartResult.accepted (fps.getD 24) codec quality ∧
    startLaunches (process_video_old (some JobStatus.uploaded) fps (some codec)
      (some quality)) = 1 := by
  have hmem : codec ∉ supportedCodecs := by
    intro hm
    have helem : supportedCodecs.contains codec = true :=
      List.elem_eq_true_of_mem hm
    rw [helem] at hbad
    simp at hbad
  simp [process_video_new, process_video_old, startLaunches, hmem]

/-- C6 witness: the codec-validation theorem applied at the unsupported
codec h264. -/
theorem codec_validated_witness :
    process_video_new (some JobStatus.uploaded) (some 24) (some "h264")
        (some "good")
      = StartResult.invalidCodec ∧
    startLaunches (process_video_new (some JobStatus.uploaded) (some 24)
      (some "h264") (some "good")) = 0 ∧
    process_video_old (some JobStatus.uploaded) (some 24) (some "h264")
        (some "good")
      = StartResult.accepted ((some (24 : Int)).getD 24) "h264" "good" ∧
    startLaunches (process_video_old (some JobStatus.uploaded) (some 24)
      (some "h264") (some "good")) = 1 :=
  codec_validated_in_consolidated (some 24) "h264" "good" (by decide)

/-- C6 counterexample: in the legacy module a request with the unsupported
codec h264 is accepted, the pipeline is launched, the encoder is spawned
(with a .mov output and no codec option), and the job even completes —
contradicting the claim that such a request is rejected before any process
is spawned. -/
theorem legacy_codec_not_validated :
    supportedCodecs.contains "h264" = false ∧
    process_video_old (some JobStatus.uploaded) (some 24) (some "h264")
        (some "good")
      = StartResult.accepted 24 "h264" "good" ∧
    (let jb : JobOld := { status := JobStatus.uploaded, files := ["a.png"] }
     let r := process_job_old jb [("d/a.png", 5)] "d" 24 "h264" "good" 0
       [("d/output.mov", 7)] []
     r.encoderRan = true ∧ r.job.status = JobStatus.completed ∧
     r.cmd = ["ffmpeg", "-y", "-framerate", "24", "-i", "d/frame_%04d.png",
              "d/output.mov"]) := by decide

/-- C7 (amended): in the legacy module every streamed line with a parseable
frame token sets progress to min(100, trunc(frame / total * 100)) and every
malformed or absent token leaves progress unchanged, line by line over the
monitored stream; the consolidated module performs no per-line progress
parsing at all — its pipeline never changes the progress field. -/
theorem legacy_progress_per_line :
    (∀ (total : Nat) (prog : Int) (line : String) (cf : Int),
      total ≠ 0 → parseFrameLine line = some cf →
        progressStep total prog line = min 100 ((cf * 100).tdiv (total : Int))) ∧
    (∀ (total : Nat) (prog : Int) (line : String),
      parseFrameLine line = none → progressStep total prog line = prog) ∧
    parseFrameLine "frame=  120 fps=30 q=2.0 size=512kB" = some 120 ∧
    parseFrameLine "frame= 12a fps=30" = none ∧
    parseFrameLine "size=     948kB time=00:00:39.50 bitrate= 196.6kbits/s" = none ∧
    (∀ (total : Nat) (prog : Int) (lines : List String) (line : String),
      monitorProgress total prog (lines ++ [line])
        = progressStep total (monitorProgress total prog lines) line) ∧
    (∀ (job0 : Job) (fs0 : FS) (dir codec quality : String) (p1 pF : ProcSpec)
        (fps : Int) (t1 t2 el : Nat),
      (process_job_new job0 fs0 dir fps codec quality p1 pF t1 t2 el).job.progress
        = job0.progress) := by
  refine ⟨?_, ?_, by decide, by decide, by decide, ?_, ?_⟩
  · intro total prog line cf h0 hp
    unfold progressStep
    rw [hp]
    simp [h0]
  · intro total prog line hp
    unfold progressStep
    rw [hp]
  · intro total prog lines line
    unfold monitorProgress
    rw [List.foldl_append]
    rfl
  · intro job0 fs0 dir codec quality p1 pF fps t1 t2 el
    simp only [process_job_new]
    split <;> split <;> rfl

/-- C7 witness: the per-line theorem applied at a concrete parseable line
(frame 2 of 4 gives 50 percent). -/
theorem legacy_progress_witness :
    progressStep 4 0 "frame=2 q=2.0" = 50 := by
  have h := legacy_progress_per_line.1 4 0 "frame=2 q=2.0" 2 (by decide) (by decide)
  rw [h]
  decide

/-- C7 counterexample: a consolidated-module job whose encoder emits a
perfectly parseable frame line (which would map to 75 percent) still ends
with progress 0 — app_new.py collects the output via communicate() and
never parses it, so the claimed per-line progress updates do not happen
there. -/
theorem consolidated_ignores_progress_lines :
    let jb : Job := { status := JobStatus.uploaded,
                      files := ["a.png", "b.png", "c.png", "d.png"] }
    let fs0 : FS := [("d/a.png", 1), ("d/b.png", 1), ("d/c.png", 1), ("d/d.png", 1)]
    let enc : ProcSpec := ⟨RunOutcome.exited 0, [("d/output.webm", 7)],
      ["frame=    3 fps=0.0 q=0.0 size=1kB"]⟩
    let r := process_job_new jb fs0 "d" 24 "vp9" "good" enc enc 1 2 3
    parseFrameLine "frame=    3 fps=0.0 q=0.0 size=1kB" = some 3 ∧
    min 100 (((3 : Int) * 100).tdiv 4) = 75 ∧
    r.job.status = JobStatus.completed ∧
    r.job.progress = 0 := by decide

/-- C8 (amended): in the consolidated module a registered frame whose
source file is missing is skipped by the rename step (a present one is
renamed), the pipeline always reaches the encoding phase, and a concrete
job with a missing frame still completes; the legacy module instead aborts
on the first missing frame. -/
theorem consolidated_rename_skips_missing :
    (∀ (dir : String) (fs : FS) (i : Nat) (f : String),
      fs.existsPath (dir ++ "/" ++ f) = false →
      renameStepNew dir fs (i, f) = fs) ∧
    (∀ (dir : String) (fs : FS) (i : Nat) (f : String),
      fs.existsPath (dir ++ "/" ++ f) = true →
      renameStepNew dir fs (i, f)
        = fs.rename (dir ++ "/" ++ f) (dir ++ "/" ++ frameName i)) ∧
    (∀ (job0 : Job) (fs0 : FS) (dir codec quality : String) (p1 pF : ProcSpec)
        (fps : Int) (t1 t2 el : Nat),
      (process_job_new job0 fs0 dir fps codec quality p1 pF t1 t2 el).encoderRan
        = true) ∧
    (let jb : Job := { status := JobStatus.uploaded, files := ["a.png", "b.png"] }
     let r := process_job_new jb [("d/b.png", 5)] "d" 24 "vp9" "good"
       ⟨RunOutcome.exited 0, [], []⟩ ⟨RunOutcome.exited 0, [("d/output.webm", 7)], []⟩
       1 2 3
     r.job.status = JobStatus.completed ∧
     r.fs.existsPath "d/frame_0001.png" = true ∧
     r.fs.existsPath "d/frame_0000.png" = false) := by
  refine ⟨?_, ?_, ?_, by decide⟩
  · intro dir fs i f h
    simp [renameStepNew, h]
  · intro dir fs i f h
    simp [renameStepNew, h]
  · intro job0 fs0 dir codec quality p1 pF fps t1 t2 el
    simp only [process_job_new]
    split <;> split <;> rfl

/-- C8 witness: the skip clause applied at a concrete missing source. -/
theorem rename_skips_witness :
    renameStepNew "d" [("d/b.png", 5)] (0, "a.png") = [("d/b.png", 5)] := by
  have h := consolidated_rename_skips_missing.1 "d" [("d/b.png", 5)] 0 "a.png"
    (by decide)
  exact h

/-- C8 counterexample: in the legacy module the unguarded os.rename raises
on the first missing frame, the job transitions to Failed, the remaining
frame is never renamed and the encoding phase is never reached —
contradicting the claim that a missing frame is skipped and the pipeline
continues. -/
theorem legacy_rename_aborts_on_missing :
    let jb : JobOld := { status := JobStatus.uploaded, files := ["a.png", "b.png"] }
    let r := process_job_old jb [("d/b.png", 5)] "d" 24 "vp9" "good" 0
      [("d/output.webm", 7)] []
    r.job.status = JobStatus.failed ∧ r.encoderRan = false ∧
    r.job.error = some "[Errno 2] No such file or directory: d/a.png" ∧
    r.fs.existsPath "d/b.png" = true ∧
    r.fs.existsPath "d/frame_0001.png" = false := by decide

/-- C9 (amended): in app_new.py the uploaded-to-processing mutation stamps
updated_at with the processing-start time and the completion mutation
refreshes it, but the ordinary encoder-failure mutation to Failed leaves
updated_at at the value set when processing began: every pipeline run ends
either Completed with updated_at refreshed to the terminal time, or Failed
with updated_at still the start-of-processing time. -/
theorem updated_at_per_terminal_status (job0 : Job) (fs0 : FS)
    (dir codec quality : String) (p1 pF : ProcSpec) (fps : Int) (t1 t2 el : Nat) :
    let r := process_job_new job0 fs0 dir fps codec quality p1 pF t1 t2 el
    (r.job.status = JobStatus.completed ∧ r.job.updated_at = t2) ∨
    (r.job.status = JobStatus.failed ∧ r.job.updated_at = t1) := by
  simp only [process_job_new]
  split <;> split <;>
    first
      | exact Or.inl ⟨rfl, rfl⟩
      | exact Or.inr ⟨rfl, rfl⟩

/-- C9 counterexample: a job failing through a non-zero encoder exit keeps
updated_at = 5, the value stamped when processing started, even though the
terminal mutation happened at time 9 — the status mutation to Failed does
not refresh the timestamp as the claim requires. -/
theorem failed_path_stale_updated_at :
    let jb : Job := { status := JobStatus.uploaded, files := ["a.png"],
                      updated_at := 0 }
    let r := process_job_new jb [("d/a.png", 5)] "d" 24 "vp9" "good"
      ⟨RunOutcome.exited 0, [], []⟩ ⟨RunOutcome.exited 1, [], []⟩ 5 9 3
    r.job.status = JobStatus.failed ∧ r.job.updated_at = 5 ∧ (5 : Nat) ≠ 9 := by
  decide

/-- C10: an upload with the two distinct names a b.png and a_b.png — both
valid PNG names that sanitize to the same secured name a_b.png — succeeds,
records two entries in the frames list (file_count 2), yet stores a single
file on disk holding the bytes of the later upload: the reported frame
count exceeds the number of stored frame files. -/
theorem duplicate_secured_names_overcount :
    ("a b.png" ≠ "a_b.png") ∧
    allowed_file "a b.png" = true ∧ allowed_file "a_b.png" = true ∧
    secure_filename "a b.png" = "a_b.png" ∧
    secure_filename "a_b.png" = "a_b.png" ∧
    (upload_files "d" [("a b.png", 10), ("a_b.png", 20)]).saved
      = ["a_b.png", "a_b.png"] ∧
    (upload_files "d" [("a b.png", 10), ("a_b.png", 20)]).saved.length = 2 ∧
    (upload_files "d" [("a b.png", 10), ("a_b.png", 20)]).disk
      = [("d/a_b.png", 20)] ∧
    (upload_files "d" [("a b.png", 10), ("a_b.png", 20)]).disk.length = 1 := by
  decide
